import Mathlib

/-!
Shallow embedding of the mini_rag_system retrieval core:
text chunking (`api/utils/pdf_processor.py`), embedding batching and the
vector store (`api/utils/vector_store.py`), the streaming LLM handler
(`api/utils/llm_handler.py`), and the websocket session handler
(`api/ws/consumers.py`).  Python strings are modelled as `List Char`,
numpy float vectors as `List Int` (the claims under study are structural:
counts, ordering, event sequences — none depends on float rounding),
and the external Gemini services as explicit function parameters.
-/

namespace MiniRag

/-- The whitespace characters stripped by Python `str.strip()` (ASCII subset;
the repository's text is ASCII-processed PDF text). -/
def pyWhitespace (c : Char) : Bool :=
  c = ' ' || c = '\t' || c = '\n' || c = '\r' || c = '\x0b' || c = '\x0c'

/-- Python `s.strip()` on a character list: drop whitespace at both ends. -/
def pyStrip (l : List Char) : List Char :=
  ((l.dropWhile pyWhitespace).reverse.dropWhile pyWhitespace).reverse

/-- Python slice `s[a:b]` (step 1) on a character list: negative indices count
from the end, then both bounds are clamped to `[0, len]`. -/
def pySlice (l : List Char) (a b : Int) : List Char :=
  let n : Int := l.length
  let a1 := if a < 0 then max (a + n) 0 else min a n
  let b1 := if b < 0 then max (b + n) 0 else min b n
  if a1 < b1 then (l.take b1.toNat).drop a1.toNat else []

/-- Python `s.rfind(c)`: index of the last occurrence of `c`, or `-1`. -/
def rfindChar (c : Char) (l : List Char) : Int :=
  match l.reverse.findIdx? (· = c) with
  | some j => (l.length : Int) - 1 - j
  | none => -1

/-- One iteration of the `while start < text_length` loop of
`PDFProcessor._split_text` (`api/utils/pdf_processor.py` lines 57-74).
Given the loop variable `start`, it computes `end = start + chunk_size`,
takes `chunk = text[start:end]`, and — when the window does not reach the end
of the text — truncates `end` back to one past `max(rfind '.', rfind '\n')`
whenever that boundary lies strictly past `chunk_size // 2`.
Returns the next value of `start` (`end - chunk_overlap`) together with the
chunk appended on this iteration (`none` when it strips to empty). -/
def splitStep (chunk_size chunk_overlap : Nat) (text : List Char)
    (start : Int) : Int × Option (List Char) :=
  let end0 : Int := start + chunk_size
  let chunk0 := pySlice text start end0
  let endChunk :=
    if end0 < (text.length : Int) then
      let last_boundary := max (rfindChar '.' chunk0) (rfindChar '\n' chunk0)
      if last_boundary > ((chunk_size / 2 : Nat) : Int) then
        (start + last_boundary + 1, pySlice text start (start + last_boundary + 1))
      else (end0, chunk0)
    else (end0, chunk0)
  let stripped := pyStrip endChunk.2
  (endChunk.1 - chunk_overlap, if stripped ≠ [] then some stripped else none)

/-- An embedding vector.  The service returns fixed-dimension float vectors;
the claims under study are structural, so components are modelled as `Int`. -/
abbrev Vec := List Int

/-- Squared Euclidean distance (the FAISS `IndexFlatL2` metric). -/
def sqDist (u v : Vec) : Int :=
  ((u.zip v).map (fun p => (p.1 - p.2) ^ 2)).sum

/-- The batching loop `for i in range(0, len(texts), EMBEDDING_BATCH_SIZE)`
of `VectorStoreManager._create_embeddings`: successive slices
`texts[i:i+B]`.  (Python raises for step 0, so `B` is used as `max B 1`;
all call sites have `B ≥ 1`.) -/
def batchify {α : Type} (B : Nat) : List α → List (List α)
  | [] => []
  | x :: xs =>
    (x :: xs).take (max B 1) :: batchify B ((x :: xs).drop (max B 1))
  termination_by l => l.length
  decreasing_by simp [List.length_drop]

/-- The body of `_create_embeddings`' try-block over the batch list: issues
one `api` request per batch in order; any request that fails (`none` models
an `APIError`, a parsing failure, or a missing `embeddings` attribute)
aborts the whole call.  Returns the concatenated vectors on success and the
number of requests issued. -/
def embedBatches (api : List String → Option (List Vec)) :
    List (List String) → Option (List Vec) × Nat
  | [] => (some [], 0)
  | b :: bs =>
    match api b with
    | none => (none, 1)
    | some vs =>
      let r := embedBatches api bs
      (r.1.map (fun rest => vs ++ rest), r.2 + 1)

/-- `VectorStoreManager._create_embeddings` (`api/utils/vector_store.py`
lines 74-122): empty input returns the empty array with no request; any
failure in the batch loop is caught and the whole call returns the empty
array (`np.array([])`), discarding vectors from earlier batches.  Returns
the vector list (empty = failure sentinel) and the request count. -/
def create_embeddings (api : List String → Option (List Vec)) (B : Nat)
    (texts : List String) : List Vec × Nat :=
  if texts = [] then ([], 0)
  else
    match embedBatches api (batchify B texts) with
    | (some vs, n) => (vs, n)
    | (none, n) => ([], n)

/-- The persisted per-document index: the FAISS vector array
(`index.faiss`) and the pickled chunk list (`chunks.pkl`). -/
structure Store where
  vectors : List Vec
  chunks : List String
deriving DecidableEq

/-- Result of `create_vector_store`: the empty-string sentinel for empty
input, the returned index path on success, or a propagated exception. -/
inductive BuildResult
  | noneSentinel
  | indexPath (document_id : Nat)
  | raised
deriving DecidableEq

/-- Observable outcome of one `create_vector_store` call: its result, how
many embedding requests were issued, and what was persisted (if anything). -/
structure BuildOutcome where
  result : BuildResult
  embedRequests : Nat
  written : Option Store
deriving DecidableEq

/-- `VectorStoreManager.create_vector_store` (`api/utils/vector_store.py`
lines 24-50): `if not text_chunks: return ""`; otherwise embed all chunks in
DOCUMENT mode — an empty embedding array makes `embeddings.shape[1]` raise
`IndexError`, which the except-block logs and re-raises, writing nothing —
and on success write `chunks.pkl` and `index.faiss` together and return the
index path. -/
def create_vector_store (api : List String → Option (List Vec)) (B : Nat)
    (text_chunks : List String) (document_id : Nat) : BuildOutcome :=
  if text_chunks = [] then ⟨.noneSentinel, 0, none⟩
  else
    let er := create_embeddings api B text_chunks
    if er.1 = [] then ⟨.raised, er.2, none⟩
    else ⟨.indexPath document_id, er.2, some ⟨er.1, text_chunks⟩⟩

/-- Model of FAISS `IndexFlatL2.search` label output for one query: the
stored vectors are ranked by squared L2 distance (ties by insertion
position), the best `k` positions are returned, and — as FAISS documents —
when the index holds fewer than `k` vectors the remaining label slots are
padded with `-1`. -/
def rankInsert (x : Int × Int) : List (Int × Int) → List (Int × Int)
  | [] => [x]
  | y :: ys =>
    if x.1 < y.1 || (x.1 = y.1 && x.2 ≤ y.2) then x :: y :: ys
    else y :: rankInsert x ys

/-- Stable sort of (distance, position) pairs by distance, ties by
position. -/
def rankSort : List (Int × Int) → List (Int × Int)
  | [] => []
  | x :: xs => rankInsert x (rankSort xs)

def faissSearchIds (db : List Vec) (q : Vec) (k : Nat) : List Int :=
  let scored := db.enum.map (fun p => (sqDist q p.2, (p.1 : Int)))
  let ids := ((rankSort scored).take k).map (fun p => p.2)
  ids ++ List.replicate (k - ids.length) (-1)

/-- Python `chunks[i]` for an `int` index: negative indices count from the
end (total here; the code below only applies it to indices `≥ -len`). -/
def pyGetItem (l : List String) (i : Int) : String :=
  if i < 0 then l.getD (l.length - (-i).toNat) "" else l.getD i.toNat ""

/-- `VectorStoreManager.search_similar` (`api/utils/vector_store.py` lines
52-72): embed the query (a failed embedding gives an empty matrix, FAISS
raises on it, and the except-block returns `[]`), run the flat index
search, then `[chunks[i] for i in indices[0] if i < len(chunks)]`. -/
def search_similar (api : List String → Option (List Vec)) (B : Nat)
    (store : Store) (query : String) (k : Nat) : List String :=
  match (create_embeddings api B [query]).1 with
  | [] => []
  | qv :: _ =>
    let ids := faissSearchIds store.vectors qv k
    (ids.filter (fun i => i < (store.chunks.length : Int))).map
      (pyGetItem store.chunks)

/-- A `google.genai.types.Content` message: a role and the texts of its
`Part` list. -/
structure Content where
  role : String
  parts : List String
deriving DecidableEq

/-- `LLMHandler.system_instruction` (`api/utils/llm_handler.py` lines
22-26). -/
def system_instruction : String :=
  "You are a helpful assistant that answers questions based on the provided context. If the context doesn\x27t contain relevant information, say so and provide a general answer. Always be concise and accurate."

/-- `LLMHandler._prepare_contents` (`api/utils/llm_handler.py` lines
58-78): one user-turn `Content`; with non-empty context the labeled
Context/Question block, otherwise the bare query. -/
def prepare_contents (query context : String) : List Content :=
  if context ≠ "" then
    [⟨"user", ["Context:\n" ++ context ++ "\n\nQuestion: " ++ query]⟩]
  else
    [⟨"user", [query]⟩]

/-- The request `LLMHandler.stream_response` sends to
`generate_content_stream` (`api/utils/llm_handler.py` lines 37-46):
contents from `_prepare_contents`, the system instruction in the dedicated
config parameter, fixed token bound and temperature. -/
structure GenerateRequest where
  model : String
  contents : List Content
  maxOutputTokens : Nat
  temperature : ℚ
  systemInstruction : String
deriving DecidableEq

/-- Builds the concrete request of `stream_response` for a query/context
pair. -/
def generateRequest (query context : String) : GenerateRequest :=
  { model := "gemini-2.5-flash"
    contents := prepare_contents query context
    maxOutputTokens := 1000
    temperature := 7 / 10
    systemInstruction := system_instruction }

/-- Behaviour of the external streaming call for one request: either the
call itself raises, or it delivers a sequence of chunk texts
(`chunk.text` may be null) and then possibly raises mid-iteration
(`some e`). -/
inductive StreamOutcome
  | failed (e : String)
  | stream (chunkTexts : List (Option String)) (err : Option String)

/-- The `for chunk in stream: if chunk.text: yield chunk.text` loop of
`stream_response`, inside its try-block: null/empty texts are skipped, and
an exception raised mid-iteration is caught and surfaced as one final
`"Error: ..."` fragment. -/
def consumeStream : List (Option String) → Option String → List String
  | [], none => []
  | [], some e => ["Error: " ++ e]
  | c :: cs, err =>
    match c with
    | some t => if t ≠ "" then t :: consumeStream cs err else consumeStream cs err
    | none => consumeStream cs err

/-- `LLMHandler.stream_response` (`api/utils/llm_handler.py` lines 28-56):
prepares the request, calls the external service (`svc`), and yields text
fragments; every exception is caught and yielded as a single
`"Error: ..."` fragment, never propagated. -/
def stream_response (svc : GenerateRequest → StreamOutcome)
    (query context : String) : List String :=
  match svc (generateRequest query context) with
  | .failed e => ["Error: " ++ e]
  | .stream cs err => consumeStream cs err

/-- Outbound websocket event kinds of `ChatConsumer`
(`api/ws/consumers.py`); `endOfResponse` is the `"end"` completion
event. -/
inductive Event
  | connection (message : String)
  | error (message : String)
  | status (message : String)
  | info (message : String)
  | stream (content : String)
  | endOfResponse (message : String)
deriving DecidableEq

/-- Connection lifecycle state of one websocket session. -/
inductive SessionState
  | unauthenticated
  | connectedActive
  | closed (code : Nat)
deriving DecidableEq

/-- The principal resolved by the auth middleware into `scope['user']`. -/
inductive Principal
  | anonymous
  | authenticated (username : String)
deriving DecidableEq

/-- Input scenario for `ChatConsumer.connect`: either the principal is
resolved, or something in the setup raises. -/
inductive ConnectScenario
  | ok (p : Principal)
  | setupFailure
deriving DecidableEq

/-- Observable outcome of `ChatConsumer.connect`: whether the transport was
accepted, the events sent, and the resulting session state. -/
structure ConnectOutcome where
  accepted : Bool
  events : List Event
  finalState : SessionState
deriving DecidableEq

/-- `ChatConsumer.connect` (`api/ws/consumers.py` lines 12-42): anonymous
principals are accepted just long enough to send one error event, then
closed with code 4001; authenticated principals get the welcome
`connection` event; an exception during setup is caught and the transport
is closed with code 4000, no event sent. -/
def connect : ConnectScenario → ConnectOutcome
  | .ok .anonymous =>
    ⟨true, [.error "Authentication failed. Please provide a valid token."],
      .closed 4001⟩
  | .ok (.authenticated _) =>
    ⟨true, [.connection "Connected successfully. You can now send queries."],
      .connectedActive⟩
  | .setupFailure => ⟨false, [], .closed 4000⟩

/-- A row of the external `Document` collaborator, with the fields this
core reads. -/
structure Document where
  id : Int
  userId : Nat
  processed : Bool
  uploadedAt : Nat
deriving DecidableEq

/-- `Document.objects.filter(...).order_by('-uploaded_at').first()`: the
stored row with the greatest `uploadedAt` among the filtered ones. -/
def mostRecentFirst (docs : List Document) : Option Document :=
  docs.foldl
    (fun acc d =>
      match acc with
      | none => some d
      | some a => if d.uploadedAt > a.uploadedAt then some d else acc)
    none

/-- `ChatConsumer.get_user_document` (`api/ws/consumers.py` lines 135-156):
with a truthy `document_id`, the first row matching
`id=document_id, user=self.user, processed=True`; otherwise (no id, or the
falsy id 0) the most recently uploaded processed document of the user.
Both branches filter on `processed=True`. -/
def get_user_document (db : List Document) (uid : Nat)
    (document_id : Option Int) : Option Document :=
  match document_id with
  | some i =>
    if i = 0 then
      mostRecentFirst (db.filter (fun d => d.userId = uid && d.processed))
    else
      (db.filter (fun d => d.id = i && d.userId = uid && d.processed)).head?
  | none =>
    mostRecentFirst (db.filter (fun d => d.userId = uid && d.processed))

/-- `ChatConsumer.retrieve_context` (`api/ws/consumers.py` lines 158-173)
on the chunk list returned by `search_similar`: join with blank lines when
non-empty, else the empty string (the exception path also gives `""`). -/
def retrieve_context (context_chunks : List String) : String :=
  if context_chunks ≠ [] then String.intercalate "\n\n" context_chunks
  else ""

/-- Python `s.strip()` on `String`. -/
def pyStripS (s : String) : String := String.mk (pyStrip s.data)

/-- One inbound websocket frame as seen by `ChatConsumer.receive`: either
it fails to parse (`json.JSONDecodeError`) or it carries
`data.get('query', '')` and `data.get('document_id')`. -/
inductive Inbound
  | malformed
  | message (query : String) (document_id : Option Int)
deriving DecidableEq

/-- The event sequence sent by `ChatConsumer.receive`
(`api/ws/consumers.py` lines 51-133) for one inbound frame, given the
environment: the document table `db`, the session user `uid`, the chunks
`retrieved` by the vector-store search, and the `fragments` yielded by
`LLMHandler.stream_response`. -/
def receiveEvents (db : List Document) (uid : Nat) (inbound : Inbound)
    (retrieved : List String) (fragments : List String) : List Event :=
  match inbound with
  | .malformed => [.error "Invalid JSON format"]
  | .message rawQuery document_id =>
    let query := pyStripS rawQuery
    if query = "" then [.error "Query cannot be empty"]
    else
      match get_user_document db uid document_id with
      | none => [.error "No document found. Please upload a PDF first."]
      | some doc =>
        if !doc.processed then
          [.error "Document is still being processed. Please wait."]
        else
          let context := retrieve_context retrieved
          [.status "Retrieving relevant context..."]
          ++ (if context = "" then
                [.info "No relevant context found in the document. Proceeding with general knowledge."]
              else [])
          ++ [.status "Generating response..."]
          ++ fragments.map .stream
          ++ [.endOfResponse "Response complete"]

/-- `ChatConsumer.receive` never calls `close`: every branch (including
both except-handlers) sends its events and leaves the session active. -/
def receive (db : List Document) (uid : Nat) (inbound : Inbound)
    (retrieved : List String) (fragments : List String) :
    List Event × SessionState :=
  (receiveEvents db uid inbound retrieved fragments, .connectedActive)

/-- Test embedding service: every text embeds to the fixed vector `v`. -/
def constEmbedService (v : Vec) : List String → Option (List Vec) :=
  fun ts => some (ts.map (fun _ => v))

/-- Test embedding service that always fails. -/
def noneEmbedService : List String → Option (List Vec) :=
  fun _ => none

/-- Test generation service that always raises at call time. -/
def failingGenService (e : String) : GenerateRequest → StreamOutcome :=
  fun _ => .failed e

/-!  ## Theorems  -/

/-- C2 counterexample: with `chunk_size = 10` and `chunk_overlap = 8`
(a configuration satisfying `0 ≤ chunk_overlap < chunk_size`), the loop of
`_split_text` does not strictly increase `start`: on the text
`"aaaaaa.aaaaaaaaaaaaa"` the first iteration finds the sentence boundary at
offset 6 (past the midpoint 5), truncates the window to `end = 7`, and sets
`start` to `7 - 8 = -1 < 0`. -/
theorem splitStep_start_can_decrease :
    (8 : Nat) < 10 ∧ (splitStep 10 8 "aaaaaa.aaaaaaaaaaaaa".toList 0).1 < 0 := by
  refine ⟨by decide, ?_⟩
  decide

/-- C2 amended: for every text and start position, one iteration of the
`_split_text` loop strictly increases `start`, provided
`chunk_overlap < chunk_size` AND `chunk_overlap ≤ chunk_size / 2 + 1`
(the second bound is what the boundary-truncation case actually needs:
a truncated window still ends at least `chunk_size / 2 + 2` characters past
`start`; the repository default 1000/200 satisfies both). -/
theorem splitStep_start_strict_mono (chunk_size chunk_overlap : Nat)
    (text : List Char) (start : Int)
    (h1 : chunk_overlap < chunk_size)
    (h2 : chunk_overlap ≤ chunk_size / 2 + 1) :
    start < (splitStep chunk_size chunk_overlap text start).1 := by
  unfold splitStep
  dsimp only
  split_ifs with hlen hb
  · dsimp only
    omega
  · dsimp only
    omega
  · dsimp only
    omega

/-- Witness for `splitStep_start_strict_mono` at the repository's default
configuration `chunk_size = 1000`, `chunk_overlap = 200`. -/
theorem splitStep_start_strict_mono_witness :
    (200 : Nat) < 1000 ∧ (200 : Nat) ≤ 1000 / 2 + 1 ∧
      (0 : Int) < (splitStep 1000 200 "abc".toList 0).1 :=
  ⟨by decide, by decide,
    splitStep_start_strict_mono 1000 200 "abc".toList 0 (by decide) (by decide)⟩

/-- If any batch in the list fails, the whole batch loop yields `none`. -/
lemma embedBatches_none_of_mem_fail (api : List String → Option (List Vec))
    (bs : List (List String)) (b : List String) (hb : b ∈ bs)
    (hfail : api b = none) : (embedBatches api bs).1 = none := by
  induction bs with
  | nil => cases hb
  | cons c cs ih =>
    rcases List.mem_cons.mp hb with h | h
    · subst h
      simp [embedBatches, hfail]
    · unfold embedBatches
      cases hc : api c with
      | none => simp
      | some vs => simp [ih h]

/-- A successful batch loop over a length-preserving service returns one
vector per input text. -/
lemma embedBatches_some_length (api : List String → Option (List Vec))
    (hapi : ∀ b vs, api b = some vs → vs.length = b.length)
    (bs : List (List String)) (vs : List Vec)
    (h : (embedBatches api bs).1 = some vs) :
    vs.length = bs.flatten.length := by
  induction bs generalizing vs with
  | nil =>
    simp only [embedBatches] at h
    cases h
    simp
  | cons c cs ih =>
    unfold embedBatches at h
    cases hc : api c with
    | none => rw [hc] at h; cases h
    | some w =>
      rw [hc] at h
      dsimp only at h
      rcases Option.map_eq_some.mp h with ⟨rest, hrest, hvs⟩
      subst hvs
      simp [List.length_append, hapi c w hc, ih rest hrest]

/-- The batch slices reassemble to the input list. -/
lemma batchify_flatten {α : Type} (B : Nat) (l : List α) :
    (batchify B l).flatten = l := by
  induction l using batchify.induct B with
  | case1 => simp [batchify]
  | case2 x xs ih =>
    rw [batchify]
    simp only [List.flatten_cons, ih, List.take_append_drop]

/-- C5: the embedding client is all-or-nothing per call — if any batch
request of the batching of `texts` fails, `_create_embeddings` returns the
empty result for the whole call; vectors from earlier successfully-embedded
batches are discarded and no shorter-than-input array is ever returned. -/
theorem create_embeddings_all_or_nothing
    (api : List String → Option (List Vec)) (B : Nat) (texts : List String)
    (b : List String) (hb : b ∈ batchify B texts) (hfail : api b = none) :
    (create_embeddings api B texts).1 = [] := by
  have htexts : texts ≠ [] := by
    rintro rfl
    simp [batchify] at hb
  unfold create_embeddings
  rw [if_neg htexts]
  have hnone := embedBatches_none_of_mem_fail api _ b hb hfail
  cases hres : embedBatches api (batchify B texts) with
  | mk o n =>
    rw [hres] at hnone
    dsimp only at hnone
    subst hnone
    rfl

/-- Witness for `create_embeddings_all_or_nothing`: the always-failing
service on the single-text input. -/
theorem create_embeddings_all_or_nothing_witness :
    (["a"] : List String) ∈ batchify 1 ["a"] ∧
      (create_embeddings noneEmbedService 1 ["a"]).1 = [] := by
  have hmem : (["a"] : List String) ∈ batchify 1 ["a"] := by
    simp [batchify]
  exact ⟨hmem,
    create_embeddings_all_or_nothing noneEmbedService 1 ["a"] ["a"] hmem rfl⟩

/-- C4: `create_vector_store` on an empty chunk list returns the
empty-string sentinel having issued no embedding request and written no
file; and on a non-empty chunk list whose embedding comes back empty it
raises (result `raised`) and writes nothing, never returning an index
handle. -/
theorem create_vector_store_empty_and_fatal :
    (∀ api B document_id,
        create_vector_store api B [] document_id
          = ⟨.noneSentinel, 0, none⟩) ∧
    (∀ api B text_chunks document_id, text_chunks ≠ [] →
        (create_embeddings api B text_chunks).1 = [] →
        create_vector_store api B text_chunks document_id
          = ⟨.raised, (create_embeddings api B text_chunks).2, none⟩) := by
  constructor
  · intro api B document_id
    rfl
  · intro api B text_chunks document_id h1 h2
    unfold create_vector_store
    rw [if_neg h1]
    dsimp only
    rw [if_pos h2]

/-- Witness for `create_vector_store_empty_and_fatal`: the empty chunk
list, and the failing service on the chunk list `["A"]`. -/
theorem create_vector_store_empty_and_fatal_witness :
    (create_vector_store noneEmbedService 1 [] 9
        = ⟨.noneSentinel, 0, none⟩) ∧
      (create_vector_store noneEmbedService 1 ["A"] 5
        = ⟨.raised, (create_embeddings noneEmbedService 1 ["A"]).2, none⟩) :=
  ⟨create_vector_store_empty_and_fatal.1 noneEmbedService 1 9,
    create_vector_store_empty_and_fatal.2 noneEmbedService 1 ["A"] 5
      (by decide)
      (by simp [create_embeddings, batchify, embedBatches, noneEmbedService])⟩

/-- C3: whenever `create_vector_store` persists a store (build succeeded,
service returning one vector per text), the store holds exactly one vector
per chunk, the persisted chunk sequence equals the input in order, the two
persisted files have equal length, and the returned result is the index
path. -/
theorem create_vector_store_aligned
    (api : List String → Option (List Vec)) (B : Nat)
    (text_chunks : List String) (document_id : Nat) (s : Store)
    (hapi : ∀ b vs, api b = some vs → vs.length = b.length)
    (h : (create_vector_store api B text_chunks document_id).written
          = some s) :
    s.vectors.length = text_chunks.length ∧ s.chunks = text_chunks ∧
      s.vectors.length = s.chunks.length ∧
      (create_vector_store api B text_chunks document_id).result
        = .indexPath document_id := by
  unfold create_vector_store at h ⊢
  by_cases h1 : text_chunks = []
  · rw [if_pos h1] at h
    cases h
  · rw [if_neg h1] at h ⊢
    dsimp only at h ⊢
    by_cases h2 : (create_embeddings api B text_chunks).1 = []
    · rw [if_pos h2] at h
      cases h
    · rw [if_neg h2] at h ⊢
      dsimp only at h
      have hs : s = ⟨(create_embeddings api B text_chunks).1, text_chunks⟩ :=
        (Option.some.injEq _ _ ▸ h).symm
      have hlen : (create_embeddings api B text_chunks).1.length
          = text_chunks.length := by
        unfold create_embeddings at h2 ⊢
        rw [if_neg h1] at h2 ⊢
        cases hres : embedBatches api (batchify B text_chunks) with
        | mk o n =>
          rw [hres] at h2
          cases o with
          | none => exact absurd rfl h2
          | some vs =>
            dsimp only
            have hsome : (embedBatches api (batchify B text_chunks)).1
                = some vs := by rw [hres]
            calc vs.length = (batchify B text_chunks).flatten.length :=
                  embedBatches_some_length api hapi _ vs hsome
              _ = text_chunks.length := by rw [batchify_flatten]
      refine ⟨?_, ?_, ?_, rfl⟩
      · rw [hs]; exact hlen
      · rw [hs]
      · rw [hs]; exact hlen

/-- Witness for `create_vector_store_aligned`: a two-chunk build with the
constant embedding service. -/
theorem create_vector_store_aligned_witness :
    ((create_vector_store (constEmbedService [0]) 1 ["A", "B"] 3).written
        = some ⟨[[0], [0]], ["A", "B"]⟩) ∧
      (([[0], [0]] : List Vec).length = (["A", "B"] : List String).length ∧
        (["A", "B"] : List String) = ["A", "B"] ∧
        ([[0], [0]] : List Vec).length = (["A", "B"] : List String).length ∧
        (create_vector_store (constEmbedService [0]) 1 ["A", "B"] 3).result
          = .indexPath 3) := by
  have hw : (create_vector_store (constEmbedService [0]) 1 ["A", "B"] 3).written
      = some ⟨[[0], [0]], ["A", "B"]⟩ := by
    simp [create_vector_store, create_embeddings, batchify, embedBatches,
      constEmbedService]
  exact ⟨hw,
    create_vector_store_aligned (constEmbedService [0]) 1 ["A", "B"] 3
      ⟨[[0], [0]], ["A", "B"]⟩
      (fun b vs h => by
        simp only [constEmbedService, Option.some.injEq] at h
        rw [← h, List.length_map])
      hw⟩

/-- The accumulator of `String.intercalate.go` only grows: the result is at
least as long as the accumulator plus one separator per remaining
element. -/
lemma intercalate_go_length (s : String) :
    ∀ (as : List String) (acc : String),
      acc.length + s.length * as.length
        ≤ (String.intercalate.go acc s as).length := by
  intro as
  induction as with
  | nil => intro acc; simp [String.intercalate.go]
  | cons a as ih =>
    intro acc
    have h1 := ih (acc ++ s ++ a)
    have h2 : (acc ++ s ++ a).length = acc.length + s.length + a.length := by
      simp [String.length_append]
    rw [h2] at h1
    calc acc.length + s.length * (a :: as).length
        = acc.length + s.length + s.length * as.length := by
          simp [List.length_cons, Nat.mul_succ]; ring
      _ ≤ acc.length + s.length + a.length + s.length * as.length := by omega
      _ ≤ (String.intercalate.go (acc ++ s ++ a) s as).length := h1
      _ = (String.intercalate.go acc s (a :: as)).length := rfl

/-- The joined context string is empty exactly when the search returned no
chunk, or returned the single empty-string chunk. -/
lemma retrieve_context_eq_empty_iff (l : List String) :
    retrieve_context l = "" ↔ l = [] ∨ l = [""] := by
  match l with
  | [] => simp [retrieve_context]
  | [a] =>
    have ha : retrieve_context [a] = a := rfl
    rw [ha]
    simp
  | a :: b :: t =>
    have hpos : 0 < (retrieve_context (a :: b :: t)).length := by
      have h1 : retrieve_context (a :: b :: t)
          = String.intercalate.go (a ++ "\n\n" ++ b) "\n\n" t := rfl
      rw [h1]
      have h2 := intercalate_go_length "\n\n" t (a ++ "\n\n" ++ b)
      have h3 : (a ++ "\n\n" ++ b).length = a.length + 2 + b.length := by
        simp [String.length_append]
        rfl
      omega
    constructor
    · intro h
      rw [h] at hpos
      simp at hpos
    · rintro (h | h) <;> cases h

/-- The event sequence of `ChatConsumer.receive` on the happy path: query
non-empty after strip, document resolved (hence processed, see
`get_user_document`). -/
lemma receiveEvents_happy (db : List Document) (uid : Nat) (q : String)
    (document_id : Option Int) (retrieved fragments : List String)
    (d : Document) (hq : pyStripS q ≠ "")
    (hd : get_user_document db uid document_id = some d)
    (hp : d.processed = true) :
    receiveEvents db uid (.message q document_id) retrieved fragments
      = [Event.status "Retrieving relevant context..."]
        ++ (if retrieve_context retrieved = "" then
              [Event.info "No relevant context found in the document. Proceeding with general knowledge."]
            else [])
        ++ [Event.status "Generating response..."]
        ++ fragments.map Event.stream
        ++ [Event.endOfResponse "Response complete"] := by
  unfold receiveEvents
  dsimp only
  rw [if_neg hq, hd]
  simp [hp, List.append_assoc]

/-- C6 counterexample: a processed document, one retrieved context chunk
(the empty string), one generated fragment — the handler still emits the
`info` event (the code keys it on the emptiness of the joined context
string, not on the number of retrieved chunks), refuting the
"if and only if retrieval produced zero context chunks" direction. -/
theorem receive_info_despite_retrieved_chunk :
    receive [⟨1, 0, true, 0⟩] 0 (.message "q" (some 1)) [""] ["x"]
      = ([.status "Retrieving relevant context...",
          .info "No relevant context found in the document. Proceeding with general knowledge.",
          .status "Generating response...",
          .stream "x",
          .endOfResponse "Response complete"], .connectedActive) ∧
    ([""] : List String).length ≠ 0 := by
  exact ⟨by decide, by decide⟩

/-- C6 amended: for a well-formed query whose document resolves and is
processed, the handler emits exactly: the retrieving status; one info event
if and only if the joined context string is empty — equivalently, iff
retrieval produced zero chunks or the single empty-string chunk; the
generating status; one stream event per fragment in order; the terminal end
event — and the session stays active. -/
theorem receive_event_order (db : List Document) (uid : Nat) (q : String)
    (document_id : Option Int) (retrieved fragments : List String)
    (d : Document) (hq : pyStripS q ≠ "")
    (hd : get_user_document db uid document_id = some d)
    (hp : d.processed = true) :
    receive db uid (.message q document_id) retrieved fragments
      = ([Event.status "Retrieving relevant context..."]
          ++ (if retrieve_context retrieved = "" then
                [Event.info "No relevant context found in the document. Proceeding with general knowledge."]
              else [])
          ++ [Event.status "Generating response..."]
          ++ fragments.map Event.stream
          ++ [Event.endOfResponse "Response complete"], .connectedActive)
    ∧ (retrieve_context retrieved = "" ↔ retrieved = [] ∨ retrieved = [""]) := by
  constructor
  · unfold receive
    rw [receiveEvents_happy db uid q document_id retrieved fragments d hq hd hp]
  · exact retrieve_context_eq_empty_iff retrieved

/-- Witness for `receive_event_order`: one processed document, one
non-empty retrieved chunk, two fragments. -/
theorem receive_event_order_witness :
    pyStripS "hello" ≠ "" ∧
    get_user_document [⟨1, 0, true, 5⟩] 0 none = some ⟨1, 0, true, 5⟩ ∧
    (receive [⟨1, 0, true, 5⟩] 0 (.message "hello" none) ["c"] ["x", "y"]
        = ([Event.status "Retrieving relevant context..."]
            ++ (if retrieve_context ["c"] = "" then
                  [Event.info "No relevant context found in the document. Proceeding with general knowledge."]
                else [])
            ++ [Event.status "Generating response..."]
            ++ (["x", "y"] : List String).map Event.stream
            ++ [Event.endOfResponse "Response complete"], .connectedActive)
      ∧ (retrieve_context ["c"] = "" ↔ (["c"] : List String) = []
          ∨ (["c"] : List String) = [""])) :=
  ⟨by decide, by decide,
    receive_event_order [⟨1, 0, true, 5⟩] 0 "hello" none ["c"] ["x", "y"]
      ⟨1, 0, true, 5⟩ (by decide) (by decide) rfl⟩

/-- C7: an anonymous principal gets exactly one `error` event and the
transport closes with the distinguished auth-failure code 4001 — in
particular the event list contains no `connection` event; an unexpected
setup failure closes with the different distinguished code 4000 and sends
no event; both codes are non-1000 and distinct. -/
theorem connect_anonymous_and_failure_codes :
    connect (.ok .anonymous)
        = ⟨true,
           [.error "Authentication failed. Please provide a valid token."],
           .closed 4001⟩ ∧
      connect .setupFailure = ⟨false, [], .closed 4000⟩ ∧
      (4001 : Nat) ≠ 1000 ∧ (4000 : Nat) ≠ 1000 ∧ (4000 : Nat) ≠ 4001 := by
  decide

/-- The stream-consumption loop with an exception raised after the listed
chunks: the yield sequence is the non-empty chunk texts followed by exactly
one error fragment. -/
lemma consumeStream_append_error (cs : List (Option String)) (e : String) :
    consumeStream cs (some e)
      = (cs.filterMap id).filter (fun t => t != "") ++ ["Error: " ++ e] := by
  induction cs with
  | nil => rfl
  | cons c cs ih =>
    cases c with
    | none => simpa [consumeStream] using ih
    | some t =>
      by_cases ht : t = ""
      · subst ht
        simpa [consumeStream] using ih
      · simp [consumeStream, ht, ih]

/-- C8: every failure inside `stream_response` — the request/call raising,
or the model stream raising mid-iteration — is caught and surfaces as
exactly one final `"Error: ..."` fragment appended after the fragments
already yielded; the generator is a total function into fragment lists
(no exception reaches the consumer), so `receive` still emits its terminal
`end` event after forwarding the fragments. -/
theorem stream_response_catches_failures
    (svc : GenerateRequest → StreamOutcome) (query context : String) :
    (∀ e, svc (generateRequest query context) = .failed e →
        stream_response svc query context = ["Error: " ++ e]) ∧
    (∀ chunkTexts e,
        svc (generateRequest query context) = .stream chunkTexts (some e) →
        stream_response svc query context
          = (chunkTexts.filterMap id).filter (fun t => t != "")
              ++ ["Error: " ++ e]) ∧
    (∀ db uid document_id retrieved d,
        get_user_document db uid document_id = some d → d.processed = true →
        pyStripS query ≠ "" →
        (receiveEvents db uid (.message query document_id) retrieved
            (stream_response svc query context)).getLast?
          = some (.endOfResponse "Response complete")) := by
  refine ⟨?_, ?_, ?_⟩
  · intro e h
    unfold stream_response
    rw [h]
  · intro cs e h
    unfold stream_response
    rw [h]
    exact consumeStream_append_error cs e
  · intro db uid document_id retrieved d hd hp hq
    rw [receiveEvents_happy db uid query document_id retrieved _ d hq hd hp]
    simp [List.getLast?_cons, List.getLast?_append, List.getLast?_concat]

/-- Witness for `stream_response_catches_failures`: a service raising at
call time, and the happy-path `end` event for it. -/
theorem stream_response_catches_failures_witness :
    (failingGenService "boom" (generateRequest "q" "") = .failed "boom" ∧
        stream_response (failingGenService "boom") "q" "" = ["Error: boom"]) ∧
      (get_user_document [⟨1, 0, true, 0⟩] 0 none = some ⟨1, 0, true, 0⟩ ∧
        (receiveEvents [⟨1, 0, true, 0⟩] 0 (.message "q" none) ["c"]
            (stream_response (failingGenService "boom") "q" "")).getLast?
          = some (.endOfResponse "Response complete")) :=
  ⟨⟨rfl, (stream_response_catches_failures (failingGenService "boom") "q" "").1
      "boom" rfl⟩,
    ⟨by decide,
      (stream_response_catches_failures (failingGenService "boom") "q" "").2.2
        [⟨1, 0, true, 0⟩] 0 none ["c"] ⟨1, 0, true, 0⟩ (by decide) rfl
        (by decide)⟩⟩

/-- C9: `_prepare_contents` composes exactly one user-turn content item —
the labeled Context/Question block when context is non-empty, the bare
query otherwise — and the request built by `stream_response` carries the
fixed system instruction in the dedicated `system_instruction` config
parameter, with the contents exactly the user turn (the instruction is not
concatenated into it). -/
theorem prepare_contents_single_user_turn (query context : String) :
    prepare_contents query context
      = [⟨"user",
          [if context ≠ "" then
             "Context:\n" ++ context ++ "\n\nQuestion: " ++ query
           else query]⟩] ∧
      (generateRequest query context).systemInstruction = system_instruction ∧
      (generateRequest query context).contents = prepare_contents query context := by
  refine ⟨?_, rfl, rfl⟩
  unfold prepare_contents
  split_ifs <;> rfl

/-- C1 at the failing input: an index built from the single chunk `"A"`,
queried with `k = 3`.  FAISS pads the missing neighbor slots with label
`-1`; the defensive filter `i < len(chunks)` lets `-1` through, and
Python's negative indexing maps `chunks[-1]` to the last chunk — so the
code returns 3 results (`["A", "A", "A"]`) instead of
`min(k, n) = min 3 1 = 1`. -/
theorem search_similar_pad_slips_filter :
    (create_vector_store (constEmbedService [0]) 1 ["A"] 7).written
        = some ⟨[[0]], ["A"]⟩ ∧
      search_similar (constEmbedService [0]) 1 ⟨[[0]], ["A"]⟩ "q" 3
        = ["A", "A", "A"] ∧
      (search_similar (constEmbedService [0]) 1 ⟨[[0]], ["A"]⟩ "q" 3).length
        ≠ min 3 (["A"] : List String).length := by
  have hs : search_similar (constEmbedService [0]) 1 ⟨[[0]], ["A"]⟩ "q" 3
      = ["A", "A", "A"] := by
    simp [search_similar, create_embeddings, batchify, embedBatches,
      constEmbedService, faissSearchIds, rankSort, rankInsert, sqDist,
      pyGetItem]
  refine ⟨?_, hs, ?_⟩
  · simp [create_vector_store, create_embeddings, batchify, embedBatches,
      constEmbedService]
  · rw [hs]
    decide

/-- The fold of `mostRecentFirst` only ever returns the accumulator or a
list element. -/
lemma foldl_pickMax_mem :
    ∀ (l : List Document) (acc : Option Document) (d : Document),
      l.foldl
        (fun acc d =>
          match acc with
          | none => some d
          | some a => if d.uploadedAt > a.uploadedAt then some d else acc)
        acc = some d →
      acc = some d ∨ d ∈ l := by
  intro l
  induction l with
  | nil => intro acc d h; exact .inl h
  | cons x xs ih =>
    intro acc d h
    rcases ih _ d h with h1 | h1
    · cases acc with
      | none =>
        injection h1 with h2
        right
        rw [← h2]
        exact List.mem_cons_self x xs
      | some a =>
        dsimp only at h1
        by_cases hgt : x.uploadedAt > a.uploadedAt
        · rw [if_pos hgt] at h1
          injection h1 with h2
          right
          rw [← h2]
          exact List.mem_cons_self x xs
        · rw [if_neg hgt] at h1
          exact .inl h1
    · exact .inr (List.mem_cons_of_mem x h1)

/-- A document returned by `mostRecentFirst` belongs to the input list. -/
lemma mostRecentFirst_mem (l : List Document) (d : Document)
    (h : mostRecentFirst l = some d) : d ∈ l := by
  rcases foldl_pickMax_mem l none d h with h1 | h1
  · cases h1
  · exact h1

/-- C10: every document returned by `get_user_document` — through the
explicit-id branch or the most-recent fallback — satisfies
`processed = true` (both querysets filter on it); consequently a query
naming a document that exists only unprocessed resolves to no document and
`receive` emits the `No document found` error event (never the
`still being processed` one), with the session staying active. -/
theorem get_user_document_always_processed :
    (∀ db uid document_id d,
        get_user_document db uid document_id = some d →
        d.processed = true) ∧
    (∀ (db : List Document) (uid : Nat) (i : Int) (q : String)
        (retrieved fragments : List String), i ≠ 0 → pyStripS q ≠ "" →
        (∀ d ∈ db, d.id = i → d.userId = uid → d.processed = false) →
        receive db uid (.message q (some i)) retrieved fragments
          = ([.error "No document found. Please upload a PDF first."],
              .connectedActive)) := by
  constructor
  · intro db uid document_id d h
    unfold get_user_document at h
    have hmem : ∀ (p : Document → Bool), d ∈ db.filter p → p d = true :=
      fun p hm => (List.mem_filter.mp hm).2
    cases document_id with
    | none =>
      have := hmem _ (mostRecentFirst_mem _ d h)
      simp only [Bool.and_eq_true, decide_eq_true_eq] at this
      exact this.2
    | some i =>
      dsimp only at h
      by_cases hi : i = 0
      · rw [if_pos hi] at h
        have := hmem _ (mostRecentFirst_mem _ d h)
        simp only [Bool.and_eq_true, decide_eq_true_eq] at this
        exact this.2
      · rw [if_neg hi] at h
        have := hmem _ (List.mem_of_mem_head? (Option.mem_def.mpr h))
        simp only [Bool.and_eq_true, decide_eq_true_eq] at this
        exact this.2
  · intro db uid i q retrieved fragments hi hq hall
    have hnone : get_user_document db uid (some i) = none := by
      unfold get_user_document
      dsimp only
      rw [if_neg hi]
      rw [List.head?_eq_none_iff, List.filter_eq_nil_iff]
      intro a ha
      simp only [Bool.and_eq_true, decide_eq_true_eq, not_and]
      intro h1 h2
      rw [hall a ha h1.1 h1.2] at h2
      simp at h2
    unfold receive receiveEvents
    dsimp only
    rw [if_neg hq, hnone]

/-- Witness for `get_user_document_always_processed`: one existing but
unprocessed document named explicitly by the query. -/
theorem get_user_document_always_processed_witness :
    (1 : Int) ≠ 0 ∧ pyStripS "q" ≠ "" ∧
      receive [⟨1, 0, false, 0⟩] 0 (.message "q" (some 1)) [] []
        = ([.error "No document found. Please upload a PDF first."],
            .connectedActive) :=
  ⟨by decide, by decide,
    get_user_document_always_processed.2 [⟨1, 0, false, 0⟩] 0 1 "q" [] []
      (by decide) (by decide) (by decide)⟩

end MiniRag
